import Mathlib

/-!
Verification development for the AI-Powered-Personalized-Nutrition-Chef
repository.  The definitions below are a shallow embedding of the
control and validation logic of the single-meal pipeline:

  * src/schemas/nutrition_schemas.py  (data model)
  * src/state.py                      (session state, pipeline control)
  * src/agents/health_agent.py        (target calculator)
  * src/agents/nutrition_validator.py (validator)
  * src/agents/macro_adjustment_agent.py (adjustment step, retry counter)
  * src/agents/substitution_agent.py  (safety net / final recipe)
  * src/graph_builder.py              (post-validation router)

Modelling conventions:
  * Python floats are modelled as exact rationals; Python ints as Lean
    integers.  Division by zero is guarded exactly where the Python code
    would raise (and only there); a node that can raise is modelled as an
    Option-valued function, with none standing for the raised exception.
  * Python truthiness tests on Optional fields are modelled explicitly
    (None, 0, 0.0, the empty string and the empty list are falsy).
  * Python round(x, 1) on floats is modelled as exact rational rounding to
    one decimal (round half towards plus infinity); the Python banker
    tie-breaking on binary floats is not modelled.  Numeric string
    formatting in report strings is modelled by the fmt functions below
    up to the same convention.
  * The language-model calls inside the adjustment and substitution steps
    are external collaborators: the structured output they return is taken
    as an extra argument of the corresponding node function.
-/

/- ── Python string primitives ──────────────────────────────────────────── -/

/-- Lowercasing of a string, one character at a time (models Python
str.lower on the ASCII range). -/
def lowerStr (s : String) : String :=
  String.mk (s.data.map Char.toLower)

/-- Tests whether the first list is an initial segment of the second. -/
def listStarts : List Char → List Char → Bool
  | [], _ => true
  | _ :: _, [] => false
  | a :: as, b :: bs => a == b && listStarts as bs

/-- Tests whether the first list occurs contiguously inside the second
(models the Python expression needle in hay on strings). -/
def listContainsSub : List Char → List Char → Bool
  | needle, [] => needle.isEmpty
  | needle, c :: t => listStarts needle (c :: t) || listContainsSub needle t

/-- Substring test, needle first (models Python needle in hay). -/
def strIn (needle hay : String) : Bool :=
  listContainsSub needle.data hay.data

/- ── Data model (src/schemas/nutrition_schemas.py) ─────────────────────── -/

/-- Classified fitness goal: the exact codomain of classify_goal in
src/agents/health_agent.py. -/
inductive GoalType where
  | muscle_gain
  | fat_loss
  | maintenance
  deriving DecidableEq, Fintype

structure MedicalCondition where
  condition : String
  notes : Option String := none
  deriving DecidableEq

structure AgeProfile where
  age_group : String
  higher_protein_need : Bool := false
  lower_sodium_need : Bool := false
  higher_calcium_need : Bool := false
  higher_iron_need : Bool := false
  lower_calorie_adjust : Bool := false
  notes : String := ""
  deriving DecidableEq

structure Ingredient where
  name : String
  quantity : String
  deriving DecidableEq

structure NutritionFacts where
  calories : ℤ
  protein_g : ℚ
  carbs_g : ℚ
  fat_g : ℚ
  fiber_g : Option ℚ := none
  sodium_mg : Option ℚ := none
  calcium_mg : Option ℚ := none
  iron_mg : Option ℚ := none
  sugar_g : Option ℚ := none
  deriving DecidableEq

structure RecipeOutput where
  dish_name : String
  ingredients : List Ingredient
  steps : List String
  nutrition : NutritionFacts
  cuisine : Option String := none
  prep_time_minutes : Option ℤ := none
  meal_type : Option String := none
  deriving DecidableEq

structure SubstitutionItem where
  original_ingredient : String
  substitute_ingredient : String
  reason : String
  deriving DecidableEq

structure SubstitutionOutput where
  substitutions_made : Bool
  substitutions : List SubstitutionItem := []
  revised_recipe : Option RecipeOutput := none
  deriving DecidableEq

structure MacroAdjustmentOutput where
  adjusted_recipe : RecipeOutput
  adjustment_notes : String
  deriving DecidableEq

structure ValidationResult where
  passed : Bool
  calorie_check : Bool
  protein_check : Bool
  carbs_check : Bool
  fat_check : Bool
  fiber_check : Bool := true
  allergen_check : Bool := true
  notes : String
  calorie_diff_pct : ℚ
  deriving DecidableEq

/-- Macro split percentages (MacroSplit in nutrition_schemas.py).
The pydantic constraints are modelled by the checked constructor
mkMacroSplit below; the agents build the raw structure directly and the
invariant is proved about their outputs. -/
structure MacroSplit where
  protein : ℤ
  carbs : ℤ
  fat : ℤ
  deriving DecidableEq

/-- Checked construction of MacroSplit: pydantic rejects any field outside
[0, 100] (Field ge=0 le=100) and any triple whose sum is not exactly 100
(the macros_must_sum_to_100 field validator).  none models the raised
ValidationError. -/
def mkMacroSplit (p c f : ℤ) : Option MacroSplit :=
  if 0 ≤ p ∧ p ≤ 100 ∧ 0 ≤ c ∧ c ≤ 100 ∧ 0 ≤ f ∧ f ≤ 100 ∧ p + c + f = 100
  then some ⟨p, c, f⟩ else none

/- ── Session state (src/state.py, NutritionState) ──────────────────────── -/

/-- The fields of NutritionState read or written by the health, validation,
adjustment, substitution and routing steps.  Defaults are the ones from
state.py (fields of the state not touched by any embedded function are
omitted). -/
structure NutritionState where
  age : Option ℤ := none
  gender : Option String := none
  weight_kg : Option ℚ := none
  height_cm : Option ℚ := none
  activity_level : Option String := none
  allergies : List String := []
  fitness_goal : Option String := none
  medical_conditions : List MedicalCondition := []
  calorie_target : Option ℤ := none
  macro_split : Option MacroSplit := none
  goal_type : Option GoalType := none
  goal_interpreted : Bool := false
  age_profile : Option AgeProfile := none
  generated_recipe : Option RecipeOutput := none
  validation_result : Option ValidationResult := none
  validation_passed : Option Bool := none
  validation_notes : Option String := none
  macro_adjustment_output : Option MacroAdjustmentOutput := none
  adjusted_by_macro_agent : Bool := false
  substitution_output : Option SubstitutionOutput := none
  substitutions_made : Bool := false
  final_recipe : Option RecipeOutput := none
  retry_count : ℤ := 0

/-- A fresh session state, with every field at its state.py default. -/
def initialState : NutritionState := {}

/- ── Python truthiness helpers ─────────────────────────────────────────── -/

def pyTruthyOptBool : Option Bool → Bool
  | some b => b
  | none => false

def pyTruthyInt : Option ℤ → Bool
  | some n => n != 0
  | none => false

def pyTruthyQ : Option ℚ → Bool
  | some q => decide (q ≠ 0)
  | none => false

def pyTruthyStr : Option String → Bool
  | some s => !s.isEmpty
  | none => false

/-- Python x or d for an optional int (0 and None are falsy). -/
def pyOrInt (o : Option ℤ) (d : ℤ) : ℤ :=
  match o with
  | some n => if n = 0 then d else n
  | none => d

/-- Python x or d for an optional string (None and the empty string are
falsy). -/
def pyOrStr (o : Option String) (d : String) : String :=
  match o with
  | some s => if s.isEmpty then d else s
  | none => d

/-- Python int() applied to a float: truncation towards zero. -/
def truncQ (q : ℚ) : ℤ :=
  if q < 0 then ⌈q⌉ else ⌊q⌋

/-- Python s.replace applied with a single space as the needle and an
underscore as the replacement: each space character is replaced. -/
def replaceSpaces (s : String) : String :=
  String.mk (s.data.map (fun c => if c = ' ' then '_' else c))

/- ── Target calculator (src/agents/health_agent.py) ────────────────────── -/

/-- Activity level multipliers (ACTIVITY_FACTORS table). -/
def activityFactorTable (s : String) : Option ℚ :=
  if s = "sedentary" then some 1.2
  else if s = "light" then some 1.375
  else if s = "moderate" then some 1.55
  else if s = "active" then some 1.725
  else if s = "very_active" then some 1.9
  else none

/-- Safe calorie floors by goal (CALORIE_FLOOR table). -/
def CALORIE_FLOOR : GoalType → ℤ
  | .muscle_gain => 1800
  | .fat_loss => 1200
  | .maintenance => 1500

/-- Default fallback calories when the profile is incomplete
(DEFAULT_CALORIES table). -/
def DEFAULT_CALORIES : GoalType → ℤ
  | .muscle_gain => 2800
  | .fat_loss => 1800
  | .maintenance => 2200

/-- Keyword classification of the free-text fitness goal
(classify_goal in health_agent.py). -/
def classifyGoal (goal : String) : GoalType :=
  let g := lowerStr goal
  if ["muscle", "gain", "bulk", "mass", "weight gain"].any (fun k => strIn k g)
  then .muscle_gain
  else if ["loss", "cut", "fat", "slim", "lean", "weight loss"].any
      (fun k => strIn k g)
  then .fat_loss
  else .maintenance

/-- Mifflin-St Jeor equation (calculate_bmr in health_agent.py). -/
def calculateBmr (age : ℤ) (gender : String) (weight_kg height_cm : ℚ) : ℚ :=
  if lowerStr gender = "male" ∨ lowerStr gender = "m" then
    10 * weight_kg + 6.25 * height_cm - 5 * age + 5
  else
    10 * weight_kg + 6.25 * height_cm - 5 * age - 161

/-- Age bracket flags derived from age alone
(build_age_profile in health_agent.py). -/
def buildAgeProfile (age : ℤ) : AgeProfile :=
  if age < 18 then
    { age_group := "teen", higher_calcium_need := true, higher_iron_need := true,
      notes := "Teens need extra calcium (bone growth) and iron (blood production). Avoid aggressive calorie restriction." }
  else if age < 35 then
    { age_group := "young_adult",
      notes := "Young adults have high metabolic capacity. Standard macro targets apply." }
  else if age < 60 then
    { age_group := "adult",
      notes := "Adults should prioritise protein for muscle retention and manage sodium for cardiovascular health." }
  else
    { age_group := "senior", higher_protein_need := true, lower_sodium_need := true,
      higher_calcium_need := true, lower_calorie_adjust := true,
      notes := "Seniors need more protein (sarcopenia prevention), less sodium (blood pressure), and more calcium (bone density). TDEE is reduced by about 10 to 15 percent vs younger adults." }

/-- Per-goal base macro splits (the base table in
macro_split_for_goal_and_age). -/
def baseSplit : GoalType → ℤ × ℤ × ℤ
  | .muscle_gain => (35, 40, 25)
  | .fat_loss => (35, 30, 35)
  | .maintenance => (30, 40, 30)

/-- Core of macro_split_for_goal_and_age, written over the five booleans
the Python branches test: the senior flag (age_profile.higher_protein_need)
and membership of diabetes / hypertension-or-heart-disease / kidney disease
in the condition names.  The straight-line sequence of guarded updates and
the final absorption of the remainder into carbs follow health_agent.py
lines 119 to 155 literally. -/
def splitCore (goal : GoalType) (hp diab hh kd : Bool) : MacroSplit :=
  let pcf := baseSplit goal
  let p := pcf.1
  let c := pcf.2.1
  let f := pcf.2.2
  let p := if hp then min (p + 5) 45 else p
  let c := if hp then max (c - 5) 20 else c
  let c := if diab then max (c - 10) 20 else c
  let f := if diab then min (f + 5) 40 else f
  let p := if diab then min (p + 5) 45 else p
  let f := if hh then max (f - 5) 20 else f
  let c := if hh then min (c + 5) 50 else c
  let p := if kd then max (p - 10) 15 else p
  let c := if kd then min (c + 5) 55 else c
  let f := if kd then min (f + 5) 40 else f
  let total := p + c + f
  let c := if total ≠ 100 then c + (100 - total) else c
  ⟨p, c, f⟩

/-- MacroSplit tuned for goal, age group and medical conditions
(macro_split_for_goal_and_age in health_agent.py). -/
def macroSplitForGoalAndAge (goal : GoalType) (ap : AgeProfile)
    (conditions : List MedicalCondition) : MacroSplit :=
  let names := conditions.map (fun c => c.condition)
  splitCore goal ap.higher_protein_need (names.contains "diabetes")
    (names.contains "hypertension" || names.contains "heart_disease")
    (names.contains "kidney_disease")

/-- Medical-condition calorie adjustments
(apply_medical_calorie_adjustments in health_agent.py). -/
def applyMedicalCalorieAdjustments (ct : ℤ) (conditions : List MedicalCondition)
    (goal : GoalType) : ℤ :=
  let names := conditions.map (fun c => c.condition)
  let ct := if names.contains "diabetes" ∧ goal = .muscle_gain
            then min ct 2800 else ct
  let ct := if (names.contains "heart_disease" ∨ names.contains "hypertension")
               ∧ goal = .fat_loss
            then max ct 1600 else ct
  let ct := if names.contains "kidney_disease" ∧ goal = .fat_loss
            then max ct 1500 else ct
  ct

/-- The delta returned by health_goal_agent_node. -/
structure HealthGoalOutput where
  calorie_target : ℤ
  macro_split : MacroSplit
  goal_type : GoalType
  age_profile : AgeProfile
  goal_interpreted : Bool
  deriving DecidableEq

/-- Calorie target computed from a complete profile (the body of the
if all([...]) branch of health_goal_agent_node, lines 205 to 230): BMR,
activity factor with the moderate default, the 10 percent senior TDEE
reduction, goal surplus or deficit, truncation to int. -/
def computedCalorieTarget (age : ℤ) (gender : String) (weight_kg height_cm : ℚ)
    (activity_level : Option String) (ap : AgeProfile) (goal : GoalType) : ℤ :=
  let bmr := calculateBmr age gender weight_kg height_cm
  let activity := replaceSpaces (lowerStr (pyOrStr activity_level "moderate"))
  let factor := (activityFactorTable activity).getD 1.55
  let tdee := bmr * factor
  let tdee := if ap.lower_calorie_adjust then tdee * 0.90 else tdee
  match goal with
  | .muscle_gain => truncQ (tdee + 300)
  | .fat_loss => truncQ (tdee - 500)
  | .maintenance => truncQ tdee

/-- The target calculator node (health_goal_agent_node in health_agent.py).
Total: every failure path in the Python code is a handled fallback, never
an exception. -/
def healthGoalAgentNode (s : NutritionState) : HealthGoalOutput :=
  let goal_type := classifyGoal (pyOrStr s.fitness_goal "")
  let age := pyOrInt s.age 25
  let conditions := s.medical_conditions
  let age_profile := buildAgeProfile age
  let ct0 : Option ℤ :=
    if pyTruthyInt s.age && pyTruthyStr s.gender && pyTruthyQ s.weight_kg
       && pyTruthyQ s.height_cm then
      some (computedCalorieTarget (s.age.getD 0) ((s.gender).getD "")
        ((s.weight_kg).getD 0) ((s.height_cm).getD 0) s.activity_level
        age_profile goal_type)
    else none
  let calorie_target := ct0.getD (DEFAULT_CALORIES goal_type)
  let calorie_target := max calorie_target (CALORIE_FLOOR goal_type)
  let calorie_target := applyMedicalCalorieAdjustments calorie_target conditions goal_type
  { calorie_target := calorie_target,
    macro_split := macroSplitForGoalAndAge goal_type age_profile conditions,
    goal_type := goal_type,
    age_profile := age_profile,
    goal_interpreted := true }

/- ── Nutrition validator (src/agents/nutrition_validator.py) ───────────── -/

def CALORIE_TOLERANCE_PCT : ℚ := 10.0
def MACRO_TOLERANCE_PCT : ℚ := 5.0
def MIN_FIBER_G_DEFAULT : ℚ := 5.0
def MIN_FIBER_G_SENIOR : ℚ := 8.0
def MAX_SODIUM_SENIOR_MG : ℚ := 600.0
def MAX_RETRIES : ℤ := 2

/-- Exact rounding to one decimal place (models Python round(x, 1)). -/
def round1 (x : ℚ) : ℚ := (round (x * 10) : ℤ) / 10

/-- Exact rounding to two decimal places (models Python round(x, 2)). -/
def round2 (x : ℚ) : ℚ := (round (x * 100) : ℤ) / 100

/-- Decimal rendering with no fractional digit (stand-in for the Python
format spec .0f). -/
def fmtF0 (x : ℚ) : String := toString (round x)

/-- Decimal rendering with one fractional digit (stand-in for the Python
format spec .1f and for str() of a one-decimal float). -/
def fmtF1 (x : ℚ) : String :=
  let n : ℤ := round (x * 10)
  (if n < 0 then "-" else "") ++ toString (n.natAbs / 10) ++ "." ++ toString (n.natAbs % 10)

/-- Grams-to-percentage conversion (actual_macro_pcts in
nutrition_validator.py): 4 kcal per gram of protein and carbs, 9 kcal per
gram of fat, all three percentages 0 when the derived energy is 0. -/
def actualMacroPcts (n : NutritionFacts) : ℚ × ℚ × ℚ :=
  let total_kcal := n.protein_g * 4 + n.carbs_g * 4 + n.fat_g * 9
  if total_kcal = 0 then (0, 0, 0)
  else (round1 (n.protein_g * 4 / total_kcal * 100),
        round1 (n.carbs_g * 4 / total_kcal * 100),
        round1 (n.fat_g * 9 / total_kcal * 100))

/-- Flagged-ingredient accumulation of check_allergens_in_recipe: for each
ingredient in order, each allergen token (lowercased) that occurs inside the
lowercased ingredient name appends one report entry. -/
def flaggedFor (ings : List Ingredient) (allergies : List String) : List String :=
  match ings with
  | [] => []
  | ing :: rest =>
      (allergies.filter (fun a => strIn (lowerStr a) (lowerStr ing.name))).map
        (fun a => ing.name ++ " (contains: " ++ a ++ ")")
      ++ flaggedFor rest allergies

/-- Allergen scan (check_allergens_in_recipe in nutrition_validator.py).
Returns (is_safe, flagged entries). -/
def checkAllergensInRecipe (recipe : RecipeOutput) (allergies : List String) :
    Bool × List String :=
  if allergies.isEmpty then (true, [])
  else
    let flagged := flaggedFor recipe.ingredients allergies
    (flagged.length == 0, flagged)

/-- Sodium evaluation (nutrition_validator.py lines 114 to 120): returns
(sodium_ok, sodium_label).  sodium_ok stays true unless the check is
required and sodium is reported above the cap. -/
def sodiumEval (required : Bool) (sodium : Option ℚ) : Bool × String :=
  if required then
    match sodium with
    | some x => (decide (x ≤ MAX_SODIUM_SENIOR_MG),
        fmtF0 x ++ "mg (limit: " ++ fmtF0 MAX_SODIUM_SENIOR_MG ++ "mg)")
    | none => (true, "⚠️ sodium not reported — cannot verify")
  else (true, "not checked")

/-- The recipe the validator (and the substitution step) operates on:
the macro-adjusted recipe when the macro agent has run, else the generated
recipe (nutrition_validator.py lines 62 to 67). -/
def candidateRecipe (s : NutritionState) : Option RecipeOutput :=
  match s.adjusted_by_macro_agent, s.macro_adjustment_output with
  | true, some mao => some mao.adjusted_recipe
  | _, _ => s.generated_recipe

/-- The senior test of the validator: age_profile is present and its
age_group is the string senior (a falsy age_profile gives false). -/
def isSenior (ap : Option AgeProfile) : Bool :=
  match ap with
  | some p => p.age_group == "senior"
  | none => false

/-- The report lines of the validator (the lines list built in
nutrition_validator.py lines 130 to 154). -/
def validationLines (nutrition : NutritionFacts) (target_cal : ℤ)
    (target_split : MacroSplit) (calorie_ok : Bool) (calorie_diff_pct : ℚ)
    (actual : ℚ × ℚ × ℚ) (protein_ok carbs_ok fat_ok : Bool)
    (protein_diff carbs_diff fat_diff : ℚ) (fiber_ok : Bool)
    (fiber_label : String) (min_fiber : ℚ) (allergen_safe : Bool)
    (flagged : List String) (sodium_check_required sodium_ok : Bool)
    (sodium_label : String) : List String :=
  [ "Calorie:  " ++ (if calorie_ok then "✅" else "❌") ++ " "
      ++ toString nutrition.calories ++ " kcal vs target " ++ toString target_cal
      ++ " kcal (" ++ fmtF1 calorie_diff_pct ++ "% diff)",
    "Protein:  " ++ (if protein_ok then "✅" else "❌") ++ " actual "
      ++ fmtF1 actual.1 ++ "% vs target " ++ toString target_split.protein
      ++ "% (diff " ++ fmtF1 protein_diff ++ "%)",
    "Carbs:    " ++ (if carbs_ok then "✅" else "❌") ++ " actual "
      ++ fmtF1 actual.2.1 ++ "% vs target " ++ toString target_split.carbs
      ++ "% (diff " ++ fmtF1 carbs_diff ++ "%)",
    "Fat:      " ++ (if fat_ok then "✅" else "❌") ++ " actual "
      ++ fmtF1 actual.2.2 ++ "% vs target " ++ toString target_split.fat
      ++ "% (diff " ++ fmtF1 fat_diff ++ "%)",
    "Fiber:    " ++ (if fiber_ok then "✅" else "❌") ++ " "
      ++ fiber_label ++ " (min: " ++ fmtF1 min_fiber ++ "g)",
    "Allergens: " ++ (if allergen_safe then "✅ Clear"
      else "❌ FLAGGED: " ++ String.intercalate ", " flagged) ]
  ++ (if sodium_check_required then
        ["Sodium:   " ++ (if sodium_ok then "✅" else "❌") ++ " " ++ sodium_label]
      else [])

/-- The sodium-check trigger (nutrition_validator.py lines 109 to 113):
senior age bracket, hypertension, or heart disease. -/
def sodiumRequired (age_profile : Option AgeProfile)
    (conditions : List MedicalCondition) : Bool :=
  let condition_names := conditions.map (fun c => c.condition)
  isSenior age_profile || condition_names.contains "hypertension"
    || condition_names.contains "heart_disease"

/-- All intermediate values computed by the validator body, named after the
local variables of nutrition_validation_agent_node. -/
structure ValidatorInternals where
  calorie_diff_pct : ℚ
  calorie_ok : Bool
  actual : ℚ × ℚ × ℚ
  protein_diff : ℚ
  carbs_diff : ℚ
  fat_diff : ℚ
  protein_ok : Bool
  carbs_ok : Bool
  fat_ok : Bool
  min_fiber : ℚ
  fiber_ok : Bool
  fiber_label : String
  allergen_safe : Bool
  flagged : List String
  sodium_check_required : Bool
  sodium_ok : Bool
  sodium_label : String
  overall_pass : Bool
  lines : List String

/-- The computation carried out on a candidate recipe against its targets
(nutrition_validator.py lines 76 to 156). -/
def validatorInternals (recipe : RecipeOutput) (target_cal : ℤ)
    (target_split : MacroSplit) (age_profile : Option AgeProfile)
    (conditions : List MedicalCondition) (allergies : List String) :
    ValidatorInternals :=
  let nutrition := recipe.nutrition
  let calorie_diff_pct := |((nutrition.calories : ℚ) - (target_cal : ℚ))| / (target_cal : ℚ) * 100
  let calorie_ok := decide (calorie_diff_pct ≤ CALORIE_TOLERANCE_PCT)
  let actual := actualMacroPcts nutrition
  let protein_diff := |actual.1 - (target_split.protein : ℚ)|
  let carbs_diff := |actual.2.1 - (target_split.carbs : ℚ)|
  let fat_diff := |actual.2.2 - (target_split.fat : ℚ)|
  let protein_ok := decide (protein_diff ≤ MACRO_TOLERANCE_PCT)
  let carbs_ok := decide (carbs_diff ≤ MACRO_TOLERANCE_PCT)
  let fat_ok := decide (fat_diff ≤ MACRO_TOLERANCE_PCT)
  let senior := isSenior age_profile
  let min_fiber := if senior then MIN_FIBER_G_SENIOR else MIN_FIBER_G_DEFAULT
  let fiber_ok := match nutrition.fiber_g with
    | some g => decide (g ≥ min_fiber)
    | none => false
  let fiber_label := match nutrition.fiber_g with
    | some g => fmtF1 g ++ "g"
    | none => "not reported"
  let allergenResult := checkAllergensInRecipe recipe allergies
  let allergen_safe := allergenResult.1
  let flagged := allergenResult.2
  let sodium_check_required := sodiumRequired age_profile conditions
  let sod := sodiumEval sodium_check_required nutrition.sodium_mg
  let sodium_ok := sod.1
  let sodium_label := sod.2
  let overall_pass := calorie_ok && protein_ok && carbs_ok && fat_ok
      && fiber_ok && allergen_safe
      && (if sodium_check_required && pyTruthyQ nutrition.sodium_mg
          then sodium_ok else true)
  let lines := validationLines nutrition target_cal target_split calorie_ok
      calorie_diff_pct actual protein_ok carbs_ok fat_ok protein_diff carbs_diff
      fat_diff fiber_ok fiber_label min_fiber allergen_safe flagged
      sodium_check_required sodium_ok sodium_label
  { calorie_diff_pct := calorie_diff_pct,
    calorie_ok := calorie_ok,
    actual := actual,
    protein_diff := protein_diff,
    carbs_diff := carbs_diff,
    fat_diff := fat_diff,
    protein_ok := protein_ok,
    carbs_ok := carbs_ok,
    fat_ok := fat_ok,
    min_fiber := min_fiber,
    fiber_ok := fiber_ok,
    fiber_label := fiber_label,
    allergen_safe := allergen_safe,
    flagged := flagged,
    sodium_check_required := sodium_check_required,
    sodium_ok := sodium_ok,
    sodium_label := sodium_label,
    overall_pass := overall_pass,
    lines := lines }

/-- The ValidationResult the validator constructs
(nutrition_validator.py lines 158 to 168). -/
def validateRecipe (recipe : RecipeOutput) (target_cal : ℤ)
    (target_split : MacroSplit) (age_profile : Option AgeProfile)
    (conditions : List MedicalCondition) (allergies : List String) :
    ValidationResult :=
  let v := validatorInternals recipe target_cal target_split age_profile
    conditions allergies
  { passed := v.overall_pass,
    calorie_check := v.calorie_ok,
    protein_check := v.protein_ok,
    carbs_check := v.carbs_ok,
    fat_check := v.fat_ok,
    fiber_check := v.fiber_ok,
    allergen_check := v.allergen_safe,
    notes := String.intercalate "\n" v.lines,
    calorie_diff_pct := round2 v.calorie_diff_pct }

/-- The delta returned by the validator node. -/
structure ValidatorOutput where
  validation_result : Option ValidationResult
  validation_passed : Bool
  validation_notes : String
  deriving DecidableEq

/-- The validator node (nutrition_validation_agent_node).  none models a
raised Python exception: a missing calorie target or macro split
(TypeError / AttributeError on None) or a zero calorie target
(ZeroDivisionError).  A missing candidate recipe is handled inside the
Python function and is NOT an exception: it returns a failed validation
with no ValidationResult. -/
def nutritionValidationAgentNode (s : NutritionState) : Option ValidatorOutput :=
  match candidateRecipe s with
  | none =>
      some { validation_result := none,
             validation_passed := false,
             validation_notes := "❌ No recipe found to validate." }
  | some recipe =>
    match s.calorie_target, s.macro_split with
    | some target_cal, some target_split =>
      if target_cal = 0 then none
      else
        let r := validateRecipe recipe target_cal target_split s.age_profile
          s.medical_conditions s.allergies
        some { validation_result := some r,
               validation_passed := r.passed,
               validation_notes := r.notes }
    | _, _ => none

/- ── Retry router (src/graph_builder.py, route_after_validation) ───────── -/

inductive Route where
  | macro_adjustment_agent
  | substitution_agent
  deriving DecidableEq

/-- The post-validation router (route_after_validation in graph_builder.py). -/
def routeAfterValidation (s : NutritionState) : Route :=
  if pyTruthyOptBool s.validation_passed then .substitution_agent
  else if s.retry_count < MAX_RETRIES then .macro_adjustment_agent
  else .substitution_agent

/-- Conditional-edge semantics of the graph library: the router computes a
label only; no delta is merged, the state passed to the chosen node is the
state the router read. -/
def routeStep (s : NutritionState) : Route × NutritionState :=
  (routeAfterValidation s, s)

/- ── Macro adjustment step (src/agents/macro_adjustment_agent.py) ──────── -/

/-- The delta returned by macro_adjustment_agent_node. -/
structure MacroAdjustmentDelta where
  macro_adjustment_output : MacroAdjustmentOutput
  adjusted_by_macro_agent : Bool
  retry_count : ℤ
  deriving DecidableEq

/-- The delta the adjustment node returns once the language model has
produced result (macro_adjustment_agent.py lines 103 to 107). -/
def macroAdjustmentDelta (s : NutritionState) (result : MacroAdjustmentOutput) :
    MacroAdjustmentDelta :=
  { macro_adjustment_output := result,
    adjusted_by_macro_agent := true,
    retry_count := s.retry_count + 1 }

/-- The adjustment node (macro_adjustment_agent_node).  The recipe to adjust
is the previous adjusted recipe when one exists, else the generated recipe;
none models the AttributeError raised when neither exists.  The structured
language-model output is the result argument. -/
def macroAdjustmentAgentNode (s : NutritionState)
    (result : MacroAdjustmentOutput) : Option MacroAdjustmentDelta :=
  let recipe := match s.macro_adjustment_output with
    | some mao => some mao.adjusted_recipe
    | none => s.generated_recipe
  match recipe with
  | none => none
  | some _ => some (macroAdjustmentDelta s result)

/-- Merging the adjustment delta into the session state (the partial-update
convention of the graph framework). -/
def applyMacroAdjustmentDelta (s : NutritionState) (d : MacroAdjustmentDelta) :
    NutritionState :=
  { s with
    macro_adjustment_output := some d.macro_adjustment_output,
    adjusted_by_macro_agent := d.adjusted_by_macro_agent,
    retry_count := d.retry_count }

/-- Merging the validator delta into the session state. -/
def applyValidatorOutput (s : NutritionState) (o : ValidatorOutput) :
    NutritionState :=
  { s with
    validation_result := o.validation_result,
    validation_passed := some o.validation_passed,
    validation_notes := some o.validation_notes }

/- ── Substitution step (src/agents/substitution_agent.py) ──────────────── -/

/-- The delta returned by substitution_agent_node. -/
structure SubstitutionDelta where
  substitution_output : SubstitutionOutput
  substitutions_made : Bool
  final_recipe : RecipeOutput
  deriving DecidableEq

/-- Merging the substitution delta into the session state. -/
def applySubstitutionDelta (s : NutritionState) (d : SubstitutionDelta) :
    NutritionState :=
  { s with
    substitution_output := some d.substitution_output,
    substitutions_made := d.substitutions_made,
    final_recipe := some d.final_recipe }

/-- The substitution node (substitution_agent_node).  The reviewed recipe is
the macro-adjusted one when available, else the generated one; none models
the AttributeError raised when neither exists.  The structured
language-model output is the result argument; the final recipe is the
revised recipe when substitutions were made and a revision was provided,
else the input recipe unchanged (lines 87 to 99). -/
def substitutionAgentNode (s : NutritionState) (result : SubstitutionOutput) :
    Option SubstitutionDelta :=
  match candidateRecipe s with
  | none => none
  | some recipe =>
    let final := match result.substitutions_made, result.revised_recipe with
      | true, some r => r
      | _, _ => recipe
    some { substitution_output := result,
           substitutions_made := result.substitutions_made,
           final_recipe := final }

/- ── The validate-adjust loop (graph_builder.py edges) ─────────────────── -/

/-- One run of the validation loop of the graph: validation number i is
performed (its boolean outcome given by the oracle outcomes, abstracting
the validator verdict on the current candidate), the router decides, and on
an adjustment route the retry counter is incremented as the adjustment node
does before validating again.  Returns (validations performed, adjustments
performed) when the loop routes to substitution within the given fuel. -/
def loopRunAux (outcomes : ℕ → Bool) : ℕ → ℤ → ℕ → Option (ℕ × ℕ)
  | 0, _, _ => none
  | fuel + 1, r, i =>
    match routeAfterValidation { validation_passed := some (outcomes i),
                                 retry_count := r } with
    | .substitution_agent => some (1, 0)
    | .macro_adjustment_agent =>
      match loopRunAux outcomes fuel (r + 1) (i + 1) with
      | some (v, a) => some (v + 1, a + 1)
      | none => none

/-- The loop started the way the compiled graph starts it: first validation
after recipe generation, retry counter at its initial value 0. -/
def loopRun (outcomes : ℕ → Bool) : Option (ℕ × ℕ) :=
  loopRunAux outcomes 3 0 0

/- ── Reference definitions written from the spec text ──────────────────── -/

/-- Reference calorie check, written from the spec sentence in section 4.2:
abs(actual - target) / target less than or equal to 0.10. -/
def specCalorieCheck (actual target : ℤ) : Bool :=
  decide (|((actual : ℚ) - (target : ℚ))| / (target : ℚ) ≤ 0.10)

/-- Reference macro percentage derivation, written from the spec sentence in
section 4.2: 4 kcal per gram of protein and carbs, 9 kcal per gram of fat,
percentages of the derived total rounded to one decimal, all zero when the
derived total energy is zero. -/
def specMacroPcts (protein_g carbs_g fat_g : ℚ) : ℚ × ℚ × ℚ :=
  let total := protein_g * 4 + carbs_g * 4 + fat_g * 9
  if total = 0 then (0, 0, 0)
  else (round1 (protein_g * 4 / total * 100),
        round1 (carbs_g * 4 / total * 100),
        round1 (fat_g * 9 / total * 100))

/-- Reference per-macro check: actual percentage within 5 percentage points
of the target percentage. -/
def specMacroCheck (actualPct targetPct : ℚ) : Bool :=
  decide (|actualPct - targetPct| ≤ 5)

/-- Reference fiber check: fails when fiber is unreported, else requires at
least 8 g in the senior age bracket and at least 5 g otherwise. -/
def specFiberCheck (fiber : Option ℚ) (senior : Bool) : Bool :=
  match fiber with
  | some g => decide (g ≥ (if senior then 8 else 5))
  | none => false

/-- The calorie formula asserted by claim C5, written from the spec words of
section 4.1: Mifflin-St Jeor BMR times the activity factor from the fixed
table (unknown activity defaulting to moderate), goal adjustment of +300,
-500 or 0 kcal (truncated to an integer as the code does), then the
per-goal floor.  No senior TDEE reduction appears in this formula. -/
def claimedCalorieTarget (age : ℤ) (gender : String) (weight height : ℚ)
    (activity : Option String) (goal : GoalType) : ℤ :=
  let bmr := calculateBmr age gender weight height
  let factor := (activityFactorTable (replaceSpaces (lowerStr
      (pyOrStr activity "moderate")))).getD 1.55
  let tdee := bmr * factor
  let adjusted := match goal with
    | .muscle_gain => truncQ (tdee + 300)
    | .fat_loss => truncQ (tdee - 500)
    | .maintenance => truncQ tdee
  max adjusted (CALORIE_FLOOR goal)

/-- The amended calorie formula: as claimedCalorieTarget, plus the
10 percent TDEE reduction the code applies in the senior age bracket
(age at least 60) before the goal adjustment. -/
def seniorAwareCalorieTarget (age : ℤ) (gender : String) (weight height : ℚ)
    (activity : Option String) (goal : GoalType) : ℤ :=
  let bmr := calculateBmr age gender weight height
  let factor := (activityFactorTable (replaceSpaces (lowerStr
      (pyOrStr activity "moderate")))).getD 1.55
  let tdee := bmr * factor
  let tdee := if 60 ≤ age then tdee * 0.90 else tdee
  let adjusted := match goal with
    | .muscle_gain => truncQ (tdee + 300)
    | .fat_loss => truncQ (tdee - 500)
    | .maintenance => truncQ tdee
  max adjusted (CALORIE_FLOOR goal)

/- ── Concrete witness inputs ───────────────────────────────────────────── -/

/-- A state whose validation failed with the retry budget exhausted. -/
def exhaustedState : NutritionState :=
  { validation_passed := some false, retry_count := 2 }

/-- A complete senior profile (age 65, male, 80 kg, 175 cm, unspecified
activity, maintenance goal, no medical conditions). -/
def seniorProfileState : NutritionState :=
  { age := some 65, gender := some "male", weight_kg := some 80,
    height_cm := some 175, fitness_goal := some "maintenance" }

/-- A complete young-adult profile (age 30, male, 80 kg, 175 cm, active,
muscle gain goal). -/
def youngProfileState : NutritionState :=
  { age := some 30, gender := some "male", weight_kg := some 80,
    height_cm := some 175, activity_level := some "active",
    fitness_goal := some "muscle gain" }

/-- A profile with age missing, a muscle-gain goal and a diabetes flag. -/
def missingAgeState : NutritionState :=
  { fitness_goal := some "muscle gain",
    medical_conditions := [{ condition := "diabetes" }] }

/-- Minimal nutrition facts for concrete recipes. -/
def plainNutrition : NutritionFacts :=
  { calories := 500, protein_g := 30, carbs_g := 50, fat_g := 20 }

/-- A recipe whose only ingredient is whole milk. -/
def wholeMilkRecipe : RecipeOutput :=
  { dish_name := "Milk bowl",
    ingredients := [{ name := "Whole Milk", quantity := "1 cup" }],
    steps := ["Pour."],
    nutrition := plainNutrition }

/-- A concrete balanced macro split. -/
def defaultSplit : MacroSplit := { protein := 30, carbs := 40, fat := 30 }

/-- An age profile in the senior bracket. -/
def seniorOnlyProfile : AgeProfile := { age_group := "senior" }

/-- A state holding a freshly generated recipe, ready for validation or
substitution. -/
def recipeReadyState : NutritionState :=
  { generated_recipe := some wholeMilkRecipe }

/-- A substitution-step output reporting no conflicts. -/
def noSubsResult : SubstitutionOutput := { substitutions_made := false }

/- ── Claim C1 ──────────────────────────────────────────────────────────── -/

/-- Claim C1: for every session state reaching the post-validation router,
a passed validation routes to the substitution step; a failed validation
with retry_count below MAX_RETRIES (2) routes to the macro-adjustment step;
a failed validation with retry_count at or above MAX_RETRIES routes to the
substitution step, and the routing leaves retry_count unchanged (the router
merges no delta). -/
theorem router_after_validation_cases (s : NutritionState) :
    (pyTruthyOptBool s.validation_passed = true →
      routeStep s = (Route.substitution_agent, s)) ∧
    (pyTruthyOptBool s.validation_passed = false → s.retry_count < MAX_RETRIES →
      routeStep s = (Route.macro_adjustment_agent, s)) ∧
    (pyTruthyOptBool s.validation_passed = false → MAX_RETRIES ≤ s.retry_count →
      routeStep s = (Route.substitution_agent, s) ∧
      (routeStep s).2.retry_count = s.retry_count) := by
  refine ⟨fun h => ?_, fun h hlt => ?_, fun h hge => ⟨?_, rfl⟩⟩
  · simp [routeStep, routeAfterValidation, h]
  · simp [routeStep, routeAfterValidation, h, hlt]
  · simp [routeStep, routeAfterValidation, h, not_lt.mpr hge]

/-- Witness for C1 at a concrete exhausted state: validation failed with
retry_count = 2 = MAX_RETRIES routes to substitution without touching the
counter. -/
theorem router_after_validation_cases_witness :
    routeStep exhaustedState = (Route.substitution_agent, exhaustedState) ∧
    (routeStep exhaustedState).2.retry_count = exhaustedState.retry_count :=
  (router_after_validation_cases exhaustedState).2.2 (by decide) (by decide)

/- ── Claim C4 ──────────────────────────────────────────────────────────── -/

/-- Exhaustive check of the macro-split invariant over the five booleans the
computation branches on. -/
lemma splitCore_invariant : ∀ (g : GoalType) (hp diab hh kd : Bool),
    0 ≤ (splitCore g hp diab hh kd).protein ∧
    (splitCore g hp diab hh kd).protein ≤ 100 ∧
    0 ≤ (splitCore g hp diab hh kd).carbs ∧
    (splitCore g hp diab hh kd).carbs ≤ 100 ∧
    0 ≤ (splitCore g hp diab hh kd).fat ∧
    (splitCore g hp diab hh kd).fat ≤ 100 ∧
    (splitCore g hp diab hh kd).protein + (splitCore g hp diab hh kd).carbs
      + (splitCore g hp diab hh kd).fat = 100 := by
  decide

/-- Claim C4: MacroSplit construction accepts exactly the triples with each
component in [0, 100] summing to exactly 100, and the split produced by the
target calculator always satisfies that invariant, for every goal, age
profile and medical condition combination. -/
theorem macro_split_invariant :
    (∀ p c f : ℤ, (mkMacroSplit p c f).isSome = true ↔
      (0 ≤ p ∧ p ≤ 100 ∧ 0 ≤ c ∧ c ≤ 100 ∧ 0 ≤ f ∧ f ≤ 100 ∧ p + c + f = 100)) ∧
    (∀ (goal : GoalType) (ap : AgeProfile) (conds : List MedicalCondition),
      (macroSplitForGoalAndAge goal ap conds).protein
        + (macroSplitForGoalAndAge goal ap conds).carbs
        + (macroSplitForGoalAndAge goal ap conds).fat = 100 ∧
      0 ≤ (macroSplitForGoalAndAge goal ap conds).protein ∧
      (macroSplitForGoalAndAge goal ap conds).protein ≤ 100 ∧
      0 ≤ (macroSplitForGoalAndAge goal ap conds).carbs ∧
      (macroSplitForGoalAndAge goal ap conds).carbs ≤ 100 ∧
      0 ≤ (macroSplitForGoalAndAge goal ap conds).fat ∧
      (macroSplitForGoalAndAge goal ap conds).fat ≤ 100 ∧
      (mkMacroSplit (macroSplitForGoalAndAge goal ap conds).protein
        (macroSplitForGoalAndAge goal ap conds).carbs
        (macroSplitForGoalAndAge goal ap conds).fat).isSome = true) := by
  constructor
  · intro p c f
    unfold mkMacroSplit
    split_ifs with h
    · simpa using h
    · simpa using h
  · intro goal ap conds
    have h := splitCore_invariant goal ap.higher_protein_need
      ((conds.map (fun c => c.condition)).contains "diabetes")
      ((conds.map (fun c => c.condition)).contains "hypertension"
        || (conds.map (fun c => c.condition)).contains "heart_disease")
      ((conds.map (fun c => c.condition)).contains "kidney_disease")
    unfold macroSplitForGoalAndAge
    obtain ⟨h1, h2, h3, h4, h5, h6, h7⟩ := h
    refine ⟨h7, h1, h2, h3, h4, h5, h6, ?_⟩
    unfold mkMacroSplit
    rw [if_pos ⟨h1, h2, h3, h4, h5, h6, h7⟩]
    rfl

/-- Witness for C4: the maintenance split with no adjustments (30/40/30) is
accepted by the checked constructor, via the iff of the theorem. -/
theorem macro_split_invariant_witness :
    (mkMacroSplit 30 40 30).isSome = true :=
  (macro_split_invariant.1 30 40 30).mpr (by decide)

/- ── Claim C2 ──────────────────────────────────────────────────────────── -/

/-- The router decision on the loop state built by the driver. -/
lemma route_on_loop_state (b : Bool) (r : ℤ) :
    routeAfterValidation { validation_passed := some b, retry_count := r } =
    (if b then Route.substitution_agent
     else if r < MAX_RETRIES then Route.macro_adjustment_agent
     else Route.substitution_agent) := rfl

/-- Termination and counting bound for the validation loop: whenever the
retry budget left fits in the fuel, the loop reaches the substitution route
with at most fuel validations and strictly fewer adjustments. -/
lemma loopRunAux_bound (outcomes : ℕ → Bool) :
    ∀ (fuel : ℕ) (r : ℤ) (i : ℕ), MAX_RETRIES - r < (fuel : ℤ) → 0 < fuel →
    ∃ v a, loopRunAux outcomes fuel r i = some (v, a) ∧ v ≤ fuel ∧ a + 1 ≤ fuel := by
  intro fuel
  induction fuel with
  | zero => intro r i _ h0; exact absurd h0 (by omega)
  | succ fuel ih =>
    intro r i hr _
    simp only [loopRunAux, route_on_loop_state]
    cases hb : outcomes i
    · by_cases hlt : r < MAX_RETRIES
      · have hfuel : (0 : ℤ) < fuel := by
          have : (0 : ℤ) ≤ MAX_RETRIES - r - 1 := by
            simp only [MAX_RETRIES] at hlt ⊢; omega
          have : MAX_RETRIES - r < (fuel : ℤ) + 1 := by exact_mod_cast hr
          omega
        obtain ⟨v, a, hrec, hv, ha⟩ := ih (r + 1) (i + 1)
          (by omega) (by exact_mod_cast hfuel)
        refine ⟨v + 1, a + 1, ?_, by omega, by omega⟩
        simp [hlt, hrec]
      · refine ⟨1, 0, ?_, by omega, by omega⟩
        simp [hlt]
    · exact ⟨1, 0, by simp, by omega, by omega⟩

/-- Claim C2: retry_count starts at 0, is never decremented by the
validator, router or substitution steps, is incremented exactly once (by
one) per macro-adjustment invocation, and consequently, for every sequence
of validation outcomes, the validate-adjust loop routes to substitution
after at most 3 validation passes and at most 2 adjustment attempts. -/
theorem retry_loop_bounded :
    initialState.retry_count = 0 ∧
    (∀ (s : NutritionState) (result : MacroAdjustmentOutput),
      (macroAdjustmentDelta s result).retry_count = s.retry_count + 1) ∧
    (∀ (s : NutritionState) (result : MacroAdjustmentOutput),
      (applyMacroAdjustmentDelta s (macroAdjustmentDelta s result)).retry_count
        = s.retry_count + 1) ∧
    (∀ (s : NutritionState) (o : ValidatorOutput),
      (applyValidatorOutput s o).retry_count = s.retry_count) ∧
    (∀ (s : NutritionState) (d : SubstitutionDelta),
      (applySubstitutionDelta s d).retry_count = s.retry_count) ∧
    (∀ s : NutritionState, (routeStep s).2.retry_count = s.retry_count) ∧
    (∀ outcomes : ℕ → Bool, ∃ v a, loopRun outcomes = some (v, a) ∧
      v ≤ 3 ∧ a ≤ 2) := by
  refine ⟨rfl, fun s r => rfl, fun s r => rfl, fun s o => rfl, fun s d => rfl,
    fun s => rfl, fun outcomes => ?_⟩
  obtain ⟨v, a, hrun, hv, ha⟩ := loopRunAux_bound outcomes 3 0 0
    (by norm_num [MAX_RETRIES]) (by norm_num)
  exact ⟨v, a, hrun, hv, by omega⟩

/- ── Claim C3 ──────────────────────────────────────────────────────────── -/

/-- The sodium factor of the overall pass: the code guards it with Python
truthiness of sodium_mg (so an explicit 0.0 is skipped), the spec evaluates
it whenever sodium is reported; the two coincide because 0.0 mg trivially
satisfies the cap. -/
lemma sodium_factor_eq (req : Bool) (sodium : Option ℚ) :
    (if req && pyTruthyQ sodium then (sodiumEval req sodium).1 else true) =
    (if req ∧ sodium.isSome then (sodiumEval req sodium).1 else true) := by
  cases sodium with
  | none => simp [pyTruthyQ]
  | some x =>
    by_cases hx : x = 0
    · subst hx
      cases req <;>
        simp [pyTruthyQ, sodiumEval, MAX_SODIUM_SENIOR_MG, decide_eq_true_eq] <;>
        norm_num
    · cases req <;> simp [pyTruthyQ, hx]

/-- Claim C3: for every candidate recipe and target with a positive calorie
target, the validator result equals the reference definitions written from
the spec: the calorie check is the 10 percent relative tolerance, the macro
percentages are the 4/4/9 kcal-per-gram derivation rounded to one decimal
(all zero on zero derived energy), the per-macro checks are the 5 point
tolerance, the fiber check is the age-dependent 8 g / 5 g threshold failing
when unreported, and the overall pass is the conjunction of all evaluated
sub-checks. -/
theorem validator_matches_reference (recipe : RecipeOutput) (target_cal : ℤ)
    (target_split : MacroSplit) (ap : Option AgeProfile)
    (conds : List MedicalCondition) (alls : List String)
    (hpos : 0 < target_cal) :
    (validateRecipe recipe target_cal target_split ap conds alls).calorie_check
      = specCalorieCheck recipe.nutrition.calories target_cal ∧
    actualMacroPcts recipe.nutrition
      = specMacroPcts recipe.nutrition.protein_g recipe.nutrition.carbs_g
          recipe.nutrition.fat_g ∧
    (validateRecipe recipe target_cal target_split ap conds alls).protein_check
      = specMacroCheck (actualMacroPcts recipe.nutrition).1
          (target_split.protein : ℚ) ∧
    (validateRecipe recipe target_cal target_split ap conds alls).carbs_check
      = specMacroCheck (actualMacroPcts recipe.nutrition).2.1
          (target_split.carbs : ℚ) ∧
    (validateRecipe recipe target_cal target_split ap conds alls).fat_check
      = specMacroCheck (actualMacroPcts recipe.nutrition).2.2
          (target_split.fat : ℚ) ∧
    (validateRecipe recipe target_cal target_split ap conds alls).fiber_check
      = specFiberCheck recipe.nutrition.fiber_g (isSenior ap) ∧
    (validateRecipe recipe target_cal target_split ap conds alls).passed
      = ((validateRecipe recipe target_cal target_split ap conds alls).calorie_check
        && (validateRecipe recipe target_cal target_split ap conds alls).protein_check
        && (validateRecipe recipe target_cal target_split ap conds alls).carbs_check
        && (validateRecipe recipe target_cal target_split ap conds alls).fat_check
        && (validateRecipe recipe target_cal target_split ap conds alls).fiber_check
        && (validateRecipe recipe target_cal target_split ap conds alls).allergen_check
        && (if sodiumRequired ap conds ∧ recipe.nutrition.sodium_mg.isSome
            then (sodiumEval (sodiumRequired ap conds)
              recipe.nutrition.sodium_mg).1
            else true)) := by
  refine ⟨?_, rfl, ?_, ?_, ?_, ?_, ?_⟩
  · simp only [validateRecipe, validatorInternals, specCalorieCheck]
    rw [decide_eq_decide]
    constructor <;> intro h <;>
      [skip; skip] <;>
      · have h10 : CALORIE_TOLERANCE_PCT = 10 := by norm_num [CALORIE_TOLERANCE_PCT]
        have h01 : (0.10 : ℚ) = 1 / 10 := by norm_num
        first
        | (rw [h10] at *; rw [h01] at *; linarith)
        | linarith
  · simp only [validateRecipe, validatorInternals, specMacroCheck]
    rw [decide_eq_decide]
    norm_num [MACRO_TOLERANCE_PCT]
  · simp only [validateRecipe, validatorInternals, specMacroCheck]
    rw [decide_eq_decide]
    norm_num [MACRO_TOLERANCE_PCT]
  · simp only [validateRecipe, validatorInternals, specMacroCheck]
    rw [decide_eq_decide]
    norm_num [MACRO_TOLERANCE_PCT]
  · simp only [validateRecipe, validatorInternals, specFiberCheck]
    cases hf : recipe.nutrition.fiber_g with
    | none => rfl
    | some g =>
      cases hs : isSenior ap <;>
        · rw [decide_eq_decide]
          norm_num [MIN_FIBER_G_SENIOR, MIN_FIBER_G_DEFAULT]
  · simp only [validateRecipe, validatorInternals]
    rw [sodium_factor_eq]

/- ── Claim C7 ──────────────────────────────────────────────────────────── -/

/-- The flagged list is empty exactly when no allergen token occurs inside
any ingredient name. -/
lemma flaggedFor_eq_nil (alls : List String) :
    ∀ ings : List Ingredient, flaggedFor ings alls = [] ↔
      ∀ ing ∈ ings, ∀ a ∈ alls, ¬ strIn (lowerStr a) (lowerStr ing.name) = true := by
  intro ings
  induction ings with
  | nil => simp [flaggedFor]
  | cons ing rest ih => simp [flaggedFor, ih]

/-- Every match contributes its report entry to the flagged list. -/
lemma mem_flaggedFor (alls : List String) :
    ∀ (ings : List Ingredient) (ing : Ingredient), ing ∈ ings →
    ∀ a ∈ alls, strIn (lowerStr a) (lowerStr ing.name) = true →
    ing.name ++ " (contains: " ++ a ++ ")" ∈ flaggedFor ings alls := by
  intro ings
  induction ings with
  | nil => intro ing h; cases h
  | cons b rest ih =>
    intro ing hing a ha hmatch
    rcases List.mem_cons.mp hing with h | h
    · subst h
      refine List.mem_append.mpr (Or.inl ?_)
      exact List.mem_map.mpr ⟨a, List.mem_filter.mpr ⟨ha, hmatch⟩, rfl⟩
    · exact List.mem_append.mpr (Or.inr (ih ing h a ha hmatch))

/-- Claim C7: the allergen check fails exactly when some declared allergy
token is a case-insensitive substring of some ingredient name; every match
is reported with the specific ingredient and matched allergen; an empty
allergy list always passes; and the ingredient Whole Milk with allergy milk
is flagged. -/
theorem allergen_scan_spec (recipe : RecipeOutput) (allergies : List String) :
    ((checkAllergensInRecipe recipe allergies).1 = false ↔
      ∃ ing ∈ recipe.ingredients, ∃ a ∈ allergies,
        strIn (lowerStr a) (lowerStr ing.name) = true) ∧
    (∀ ing ∈ recipe.ingredients, ∀ a ∈ allergies,
      strIn (lowerStr a) (lowerStr ing.name) = true →
        ing.name ++ " (contains: " ++ a ++ ")"
          ∈ (checkAllergensInRecipe recipe allergies).2) ∧
    (allergies = [] → (checkAllergensInRecipe recipe allergies).1 = true) ∧
    (checkAllergensInRecipe wholeMilkRecipe ["milk"]).1 = false := by
  refine ⟨?_, ?_, ?_, by decide⟩
  · by_cases he : allergies.isEmpty
    · have : allergies = [] := List.isEmpty_iff.mp he
      subst this
      simp [checkAllergensInRecipe]
    · simp only [checkAllergensInRecipe, if_neg he]
      constructor
      · intro h
        by_contra hcon
        push_neg at hcon
        have hnil : flaggedFor recipe.ingredients allergies = [] :=
          (flaggedFor_eq_nil allergies recipe.ingredients).mpr hcon
        rw [hnil] at h
        simp at h
      · intro ⟨ing, hing, a, ha, hmatch⟩
        have hmem := mem_flaggedFor allergies recipe.ingredients ing hing a ha hmatch
        rcases hflag : flaggedFor recipe.ingredients allergies with _ | ⟨x, xs⟩
        · rw [hflag] at hmem; cases hmem
        · simp [hflag]
  · intro ing hing a ha hmatch
    have he : allergies.isEmpty = false := by
      cases allergies with
      | nil => cases ha
      | cons x xs => rfl
    simp only [checkAllergensInRecipe, he, Bool.false_eq_true, if_false]
    exact mem_flaggedFor allergies recipe.ingredients ing hing a ha hmatch
  · intro h
    subst h
    rfl

/-- Witness for C7: the membership and emptiness implications at concrete
inputs, via the theorem. -/
theorem allergen_scan_spec_witness :
    "Whole Milk" ++ " (contains: " ++ "milk" ++ ")"
      ∈ (checkAllergensInRecipe wholeMilkRecipe ["milk"]).2 ∧
    (checkAllergensInRecipe wholeMilkRecipe []).1 = true :=
  ⟨(allergen_scan_spec wholeMilkRecipe ["milk"]).2.1
      { name := "Whole Milk", quantity := "1 cup" } (by decide) "milk"
      (by decide) (by decide),
    (allergen_scan_spec wholeMilkRecipe []).2.2.1 rfl⟩

/- ── Claim C8 ──────────────────────────────────────────────────────────── -/

/-- Claim C8: the sodium check is evaluated only when the profile requires
it (senior bracket, hypertension or heart disease); when required and
reported it passes exactly when sodium_mg is at most 600; when required but
unreported it is flagged as indeterminate in the notes and does not, by
itself, make the overall validation fail (the overall pass reduces to the
conjunction of the other six checks). -/
theorem sodium_check_policy (recipe : RecipeOutput) (target_cal : ℤ)
    (target_split : MacroSplit) (ap : Option AgeProfile)
    (conds : List MedicalCondition) (alls : List String) :
    (sodiumRequired ap conds = false →
      sodiumEval (sodiumRequired ap conds) recipe.nutrition.sodium_mg
        = (true, "not checked") ∧
      (validateRecipe recipe target_cal target_split ap conds alls).passed
        = ((validateRecipe recipe target_cal target_split ap conds alls).calorie_check
          && (validateRecipe recipe target_cal target_split ap conds alls).protein_check
          && (validateRecipe recipe target_cal target_split ap conds alls).carbs_check
          && (validateRecipe recipe target_cal target_split ap conds alls).fat_check
          && (validateRecipe recipe target_cal target_split ap conds alls).fiber_check
          && (validateRecipe recipe target_cal target_split ap conds alls).allergen_check)) ∧
    (∀ x : ℚ, (sodiumEval true (some x)).1 = decide (x ≤ 600)) ∧
    (sodiumRequired ap conds = true → recipe.nutrition.sodium_mg = none →
      (sodiumEval (sodiumRequired ap conds) recipe.nutrition.sodium_mg).2
        = "⚠️ sodium not reported — cannot verify" ∧
      "Sodium:   ✅ ⚠️ sodium not reported — cannot verify"
        ∈ (validatorInternals recipe target_cal target_split ap conds alls).lines ∧
      (validateRecipe recipe target_cal target_split ap conds alls).passed
        = ((validateRecipe recipe target_cal target_split ap conds alls).calorie_check
          && (validateRecipe recipe target_cal target_split ap conds alls).protein_check
          && (validateRecipe recipe target_cal target_split ap conds alls).carbs_check
          && (validateRecipe recipe target_cal target_split ap conds alls).fat_check
          && (validateRecipe recipe target_cal target_split ap conds alls).fiber_check
          && (validateRecipe recipe target_cal target_split ap conds alls).allergen_check)) := by
  refine ⟨fun hreq => ⟨?_, ?_⟩, fun x => ?_, fun hreq hsod => ⟨?_, ?_, ?_⟩⟩
  · rw [hreq]; rfl
  · simp only [validateRecipe, validatorInternals, hreq]
    simp
  · have hx : (sodiumEval true (some x)).1 = decide (x ≤ MAX_SODIUM_SENIOR_MG) := rfl
    rw [hx, decide_eq_decide]
    norm_num [MAX_SODIUM_SENIOR_MG]
  · rw [hreq, hsod]; rfl
  · simp only [validatorInternals, validationLines, hreq, hsod, sodiumEval, if_pos]
    simp
  · simp only [validateRecipe, validatorInternals, hreq, hsod]
    simp [pyTruthyQ]

/- ── Claim C5 ──────────────────────────────────────────────────────────── -/

/-- The senior TDEE-reduction flag is set exactly for ages 60 and above. -/
lemma buildAgeProfile_lower_calorie (a : ℤ) :
    (buildAgeProfile a).lower_calorie_adjust = decide (60 ≤ a) := by
  unfold buildAgeProfile
  split_ifs with h1 h2 h3
  · exact (decide_eq_false (by omega)).symm
  · exact (decide_eq_false (by omega)).symm
  · exact (decide_eq_false (by omega)).symm
  · exact (decide_eq_true (by omega)).symm

/-- The complete-profile branch of the node, floored, equals the
senior-aware formula. -/
lemma computed_eq_seniorAware (a : ℤ) (g : String) (w ht : ℚ)
    (act : Option String) (goal : GoalType) :
    max (computedCalorieTarget a g w ht act (buildAgeProfile a) goal)
      (CALORIE_FLOOR goal) = seniorAwareCalorieTarget a g w ht act goal := by
  unfold computedCalorieTarget seniorAwareCalorieTarget
  rw [buildAgeProfile_lower_calorie]
  by_cases h60 : 60 ≤ a
  · cases goal <;> simp [h60]
  · cases goal <;> simp [h60]

/-- Evaluation of the node on a complete (truthy) profile: the calorie
target is the senior-aware formula with the medical adjustments layered on
top. -/
lemma healthNode_complete_calorie (s : NutritionState) (a : ℤ) (g : String)
    (w ht : ℚ)
    (hage : s.age = some a) (hat : pyTruthyInt s.age = true)
    (hg : s.gender = some g) (hgt : pyTruthyStr s.gender = true)
    (hw : s.weight_kg = some w) (hwt : pyTruthyQ s.weight_kg = true)
    (hh : s.height_cm = some ht) (hht : pyTruthyQ s.height_cm = true) :
    (healthGoalAgentNode s).calorie_target =
      applyMedicalCalorieAdjustments
        (seniorAwareCalorieTarget a g w ht s.activity_level
          (classifyGoal (pyOrStr s.fitness_goal "")))
        s.medical_conditions
        (classifyGoal (pyOrStr s.fitness_goal "")) := by
  have ha : a ≠ 0 := by
    rw [hage] at hat
    simpa [pyTruthyInt] using hat
  have hor : pyOrInt s.age 25 = a := by
    rw [hage]
    simp [pyOrInt, ha]
  simp only [healthGoalAgentNode, hat, hgt, hwt, hht, hor, Bool.and_self,
    Bool.true_and, if_pos, Option.getD_some]
  rw [hage, hg, hw, hh]
  simp only [Option.getD_some]
  rw [computed_eq_seniorAware]

/-- Counterexample to claim C5 as stated: on a complete senior profile
(age 65, male, 80 kg, 175 cm, default activity, maintenance, no medical
conditions) the node computes 2195 kcal (the code applies a 10 percent
senior TDEE reduction), while the formula asserted by the claim gives
2439 kcal. -/
theorem health_target_claim_counterexample :
    (healthGoalAgentNode seniorProfileState).calorie_target = 2195 ∧
    applyMedicalCalorieAdjustments
      (claimedCalorieTarget 65 "male" 80 175 none GoalType.maintenance)
      seniorProfileState.medical_conditions GoalType.maintenance = 2439 ∧
    (2195 : ℤ) ≠ 2439 := by
  have hfac : (activityFactorTable (replaceSpaces (lowerStr
      (pyOrStr none "moderate")))).getD 1.55 = 1.55 := by
    have hkey : replaceSpaces (lowerStr (pyOrStr none "moderate")) = "moderate" := by
      decide
    rw [hkey]
    simp +decide [activityFactorTable]
  have hbmr : calculateBmr 65 "male" 80 175 = 6295 / 4 := by
    unfold calculateBmr
    rw [if_pos (Or.inl (by decide))]
    norm_num
  refine ⟨?_, ?_, by decide⟩
  · rw [healthNode_complete_calorie seniorProfileState 65 "male" 80 175
      rfl (by decide) rfl (by decide) rfl (by decide) rfl (by decide)]
    have hgoal : classifyGoal (pyOrStr seniorProfileState.fitness_goal "")
        = GoalType.maintenance := by decide
    rw [hgoal]
    have hsen : seniorAwareCalorieTarget 65 "male" 80 175
        seniorProfileState.activity_level GoalType.maintenance = 2195 := by
      have hact : seniorProfileState.activity_level = none := rfl
      rw [hact]
      simp only [seniorAwareCalorieTarget, hbmr, hfac,
        show (60 : ℤ) ≤ 65 by norm_num, if_true]
      have harith : (6295 / 4 : ℚ) * 1.55 * 0.90 = 1756305 / 800 := by norm_num
      rw [harith]
      have htr : truncQ (1756305 / 800 : ℚ) = 2195 := by
        unfold truncQ
        rw [if_neg (by norm_num)]
        rw [Int.floor_eq_iff] <;> norm_num
      rw [htr]
      decide
    rw [hsen]
    decide
  · have hcl : claimedCalorieTarget 65 "male" 80 175 none GoalType.maintenance
        = 2439 := by
      simp only [claimedCalorieTarget, hbmr, hfac]
      have harith : (6295 / 4 : ℚ) * 1.55 = 195145 / 80 := by norm_num
      rw [harith]
      have htr : truncQ (195145 / 80 : ℚ) = 2439 := by
        unfold truncQ
        rw [if_neg (by norm_num)]
        rw [Int.floor_eq_iff] <;> norm_num
      rw [htr]
      decide
    rw [hcl]
    decide

/-- Claim C5 as amended: for every complete (truthy) profile the calorie
target equals the Mifflin-St Jeor BMR times the activity factor from the
fixed table (unknown activity defaulting to moderate 1.55), with a further
10 percent TDEE reduction in the senior age bracket (age 60 and above),
adjusted by goal (+300 / -500 / 0 kcal, truncated to an integer), floored
at the per-goal minimum of 1800/1200/1500 kcal, with medical-condition
adjustments layered on top. -/
theorem health_target_formula (s : NutritionState) (a : ℤ) (g : String)
    (w ht : ℚ)
    (hage : s.age = some a) (hat : pyTruthyInt s.age = true)
    (hg : s.gender = some g) (hgt : pyTruthyStr s.gender = true)
    (hw : s.weight_kg = some w) (hwt : pyTruthyQ s.weight_kg = true)
    (hh : s.height_cm = some ht) (hht : pyTruthyQ s.height_cm = true) :
    (healthGoalAgentNode s).calorie_target =
      applyMedicalCalorieAdjustments
        (seniorAwareCalorieTarget a g w ht s.activity_level
          (classifyGoal (pyOrStr s.fitness_goal "")))
        s.medical_conditions
        (classifyGoal (pyOrStr s.fitness_goal "")) :=
  healthNode_complete_calorie s a g w ht hage hat hg hgt hw hwt hh hht

/-- Witness for the amended C5 at a complete young-adult profile. -/
theorem health_target_formula_witness :
    (healthGoalAgentNode youngProfileState).calorie_target =
      applyMedicalCalorieAdjustments
        (seniorAwareCalorieTarget 30 "male" 80 175
          youngProfileState.activity_level
          (classifyGoal (pyOrStr youngProfileState.fitness_goal "")))
        youngProfileState.medical_conditions
        (classifyGoal (pyOrStr youngProfileState.fitness_goal "")) :=
  health_target_formula youngProfileState 30 "male" 80 175
    rfl (by decide) rfl (by decide) rfl (by decide) rfl (by decide)

/- ── Claim C6 ──────────────────────────────────────────────────────────── -/

/-- The per-goal default calorie value survives the per-goal floor and every
combination of medical-condition adjustments. -/
lemma default_target_stable (g : GoalType) (conds : List MedicalCondition) :
    applyMedicalCalorieAdjustments (max (DEFAULT_CALORIES g) (CALORIE_FLOOR g))
      conds g = DEFAULT_CALORIES g := by
  cases g <;>
    simp only [applyMedicalCalorieAdjustments, DEFAULT_CALORIES, CALORIE_FLOOR] <;>
    split_ifs <;> decide

/-- Claim C6: whenever any of age, sex, weight or height is missing (falsy),
the node produces the fixed per-goal default calorie value, unchanged by the
floor and the medical-condition adjustments, and raises no error (the node
is a total function). -/
theorem health_default_on_missing (s : NutritionState)
    (h : pyTruthyInt s.age = false ∨ pyTruthyStr s.gender = false ∨
      pyTruthyQ s.weight_kg = false ∨ pyTruthyQ s.height_cm = false) :
    (healthGoalAgentNode s).calorie_target =
      DEFAULT_CALORIES (classifyGoal (pyOrStr s.fitness_goal "")) := by
  have hcond : (pyTruthyInt s.age && pyTruthyStr s.gender &&
      pyTruthyQ s.weight_kg && pyTruthyQ s.height_cm) = false := by
    rcases h with h | h | h | h <;> simp [h]
  simp only [healthGoalAgentNode, hcond, Bool.false_eq_true, if_false,
    Option.getD_none]
  exact default_target_stable _ _

/-- Witness for C6: a profile with age missing, a muscle-gain goal and a
diabetes flag still yields the fixed default of 2800 kcal. -/
theorem health_default_on_missing_witness :
    (healthGoalAgentNode missingAgeState).calorie_target = 2800 := by
  rw [health_default_on_missing missingAgeState (Or.inl rfl)]
  decide

/- ── Remaining witnesses and claims C9, C10 ────────────────────────────── -/

/-- Witness for C3 at a concrete recipe and positive target. -/
theorem validator_matches_reference_witness :
    0 < (2200 : ℤ) ∧
    (validateRecipe wholeMilkRecipe 2200 defaultSplit none [] []).calorie_check
      = specCalorieCheck wholeMilkRecipe.nutrition.calories 2200 :=
  ⟨by decide,
    (validator_matches_reference wholeMilkRecipe 2200 defaultSplit none [] []
      (by decide)).1⟩

/-- Witness for C8 on a senior profile with unreported sodium: the warning
is flagged in the notes and overall validation reduces to the other six
checks. -/
theorem sodium_check_policy_witness :
    (sodiumEval (sodiumRequired (some seniorOnlyProfile) [])
      wholeMilkRecipe.nutrition.sodium_mg).2
      = "⚠️ sodium not reported — cannot verify" ∧
    "Sodium:   ✅ ⚠️ sodium not reported — cannot verify"
      ∈ (validatorInternals wholeMilkRecipe 2200 defaultSplit
          (some seniorOnlyProfile) [] []).lines ∧
    (validateRecipe wholeMilkRecipe 2200 defaultSplit
        (some seniorOnlyProfile) [] []).passed
      = ((validateRecipe wholeMilkRecipe 2200 defaultSplit
          (some seniorOnlyProfile) [] []).calorie_check
        && (validateRecipe wholeMilkRecipe 2200 defaultSplit
          (some seniorOnlyProfile) [] []).protein_check
        && (validateRecipe wholeMilkRecipe 2200 defaultSplit
          (some seniorOnlyProfile) [] []).carbs_check
        && (validateRecipe wholeMilkRecipe 2200 defaultSplit
          (some seniorOnlyProfile) [] []).fat_check
        && (validateRecipe wholeMilkRecipe 2200 defaultSplit
          (some seniorOnlyProfile) [] []).fiber_check
        && (validateRecipe wholeMilkRecipe 2200 defaultSplit
          (some seniorOnlyProfile) [] []).allergen_check) :=
  (sodium_check_policy wholeMilkRecipe 2200 defaultSplit
    (some seniorOnlyProfile) [] []).2.2 (by decide) rfl

/-- Claim C9: when a candidate recipe reaches the substitution step, the
node always succeeds and defines the final recipe: with no substitutions
made the input recipe is carried forward unchanged (and the reported
substitution list is the one returned, empty in the no-conflict contract);
with substitutions made and a revision provided, the revised recipe becomes
the final recipe; in every case the final recipe is either the revision or
the input candidate, and downstream steps read this final_recipe field. -/
theorem substitution_defines_final (s : NutritionState)
    (result : SubstitutionOutput) (recipe : RecipeOutput)
    (hrec : candidateRecipe s = some recipe) :
    ∃ d, substitutionAgentNode s result = some d ∧
      d.substitution_output = result ∧
      d.substitutions_made = result.substitutions_made ∧
      (result.substitutions_made = false →
        d.final_recipe = recipe ∧
        d.substitution_output.substitutions = result.substitutions) ∧
      (∀ r, result.substitutions_made = true → result.revised_recipe = some r →
        d.final_recipe = r) ∧
      (d.final_recipe = recipe ∨
        ∃ r, result.revised_recipe = some r ∧ d.final_recipe = r) ∧
      (applySubstitutionDelta s d).final_recipe = some d.final_recipe := by
  unfold substitutionAgentNode
  rw [hrec]
  refine ⟨_, rfl, rfl, rfl, ?_, ?_, ?_, rfl⟩
  · intro hmade
    refine ⟨?_, rfl⟩
    cases hrev : result.revised_recipe <;> simp [hmade, hrev]
  · intro r hmade hrev
    simp [hmade, hrev]
  · cases hmade : result.substitutions_made
    · left
      cases hrev : result.revised_recipe <;> simp [hmade, hrev]
    · cases hrev : result.revised_recipe
      · left
        simp [hmade, hrev]
      · right
        exact ⟨_, rfl, by simp [hmade, hrev]⟩

/-- Witness for C9: the no-conflict pass-through on a concrete state. -/
theorem substitution_defines_final_witness :
    ∃ d, substitutionAgentNode recipeReadyState noSubsResult = some d ∧
      d.substitution_output = noSubsResult ∧
      d.substitutions_made = noSubsResult.substitutions_made ∧
      (noSubsResult.substitutions_made = false →
        d.final_recipe = wholeMilkRecipe ∧
        d.substitution_output.substitutions = noSubsResult.substitutions) ∧
      (∀ r, noSubsResult.substitutions_made = true →
        noSubsResult.revised_recipe = some r → d.final_recipe = r) ∧
      (d.final_recipe = wholeMilkRecipe ∨
        ∃ r, noSubsResult.revised_recipe = some r ∧ d.final_recipe = r) ∧
      (applySubstitutionDelta recipeReadyState d).final_recipe
        = some d.final_recipe :=
  substitution_defines_final recipeReadyState noSubsResult wholeMilkRecipe rfl

/-- Claim C10: when the state holds neither a generated nor a macro-adjusted
recipe, the validator returns a failed validation with no ValidationResult
and the explanatory note, instead of raising, and merging that output makes
the router treat it like any failed validation. -/
theorem validator_handles_missing_recipe (s : NutritionState)
    (h1 : s.generated_recipe = none) (h2 : s.macro_adjustment_output = none) :
    nutritionValidationAgentNode s =
      some { validation_result := none, validation_passed := false,
             validation_notes := "❌ No recipe found to validate." } ∧
    ∀ o, nutritionValidationAgentNode s = some o →
      routeAfterValidation (applyValidatorOutput s o) =
        (if s.retry_count < MAX_RETRIES then Route.macro_adjustment_agent
         else Route.substitution_agent) := by
  have hcand : candidateRecipe s = none := by
    unfold candidateRecipe
    rw [h2, h1]
    cases s.adjusted_by_macro_agent <;> rfl
  have hnode : nutritionValidationAgentNode s =
      some { validation_result := none, validation_passed := false,
             validation_notes := "❌ No recipe found to validate." } := by
    unfold nutritionValidationAgentNode
    rw [hcand]
  refine ⟨hnode, fun o ho => ?_⟩
  rw [hnode] at ho
  have ho2 : o = { validation_result := none, validation_passed := false,
                   validation_notes := "❌ No recipe found to validate." } :=
    (Option.some_injective _ ho).symm
  subst ho2
  rfl

/-- Witness for C10 at a fresh session state: the failed validation is
produced and the router sends it to the macro-adjustment step, as for any
failed validation with retry budget left. -/
theorem validator_handles_missing_recipe_witness :
    nutritionValidationAgentNode initialState =
      some { validation_result := none, validation_passed := false,
             validation_notes := "❌ No recipe found to validate." } ∧
    routeAfterValidation (applyValidatorOutput initialState
      { validation_result := none, validation_passed := false,
        validation_notes := "❌ No recipe found to validate." })
      = Route.macro_adjustment_agent := by
  obtain ⟨h1, h2⟩ := validator_handles_missing_recipe initialState rfl rfl
  refine ⟨h1, ?_⟩
  rw [h2 _ h1]
  rw [if_pos]
  decide
